import Mathlib

/-
Shallow embedding of the S3-backed queue coordination scripts of
Recon-Fuzz/scfuzzbench (scripts/s3_queue_worker.py, scripts/s3_queue_init.py,
scripts/run_completion.py, scripts/s3_lock.py) together with proofs about
them.  JSON payloads are modelled as Lean structures whose fields carry the
parsed values of the corresponding JSON keys (an Option stands for an absent
or unparseable field); the object store is modelled as explicit state passed
through the functions, and each side-effecting write is recorded in an
explicit write trace.
-/

set_option maxHeartbeats 1000000

namespace Scfuzzbench

/-- Model of re.sub applied per character: any character outside
[a-zA-Z0-9._-] becomes an underscore (sanitize in s3_queue_worker.py,
sanitize_fragment in s3_queue_init.py). -/
def sanitizeChar (c : Char) : Char :=
  if ('a' ≤ c ∧ c ≤ 'z') ∨ ('A' ≤ c ∧ c ≤ 'Z') ∨ ('0' ≤ c ∧ c ≤ '9') ∨
      c = '.' ∨ c = '_' ∨ c = '-' then c else '_'

/-- sanitize(value) from s3_queue_worker.py. -/
def sanitize (s : String) : String := String.mk (s.data.map sanitizeChar)

/-- str.strip(): drop leading and trailing whitespace. -/
def pyStrip (s : String) : String :=
  String.mk (((s.data.dropWhile Char.isWhitespace).reverse.dropWhile Char.isWhitespace).reverse)

/-- str.lower(): lower-case every character. -/
def pyLower (s : String) : String := String.mk (s.data.map Char.toLower)

/-- Model of str(x).strip().lower() as applied to status strings. -/
def normStatus (s : String) : String := pyLower (pyStrip s)

/-- parse_int(value, default) from s3_queue_worker.py: the raw JSON value is
modelled as an Option Int, none standing for an absent or non-integer
value, in which case the default is returned. -/
def parse_int (v : Option Int) (d : Int) : Int := v.getD d

/-- One shard queue object (queue/shards/<shard_key>.json).  Fields are the
JSON keys written by s3_queue_init.py main and mutated by
s3_queue_worker.py; integer-typed keys that the scripts read through
parse_int are Option Int. -/
structure ShardObj where
  shard_key : String := ""
  fuzzer_key : String := ""
  run_index : Int := 0
  status : String := ""
  attempt : Option Int := none
  max_attempts : Option Int := none
  created_at : String := ""
  updated_at : String := ""
  started_at : String := ""
  finished_at : String := ""
  last_worker_id : String := ""
  last_exit_code : Option Int := none
  retry_available_at_epoch : Option Int := none
  retry_available_at : String := ""
  claim_token : String := ""
  deriving Repr, DecidableEq

/-- The initial counts dictionary of shard_counts / count_states, keyed in
insertion order exactly as the Python dict literal. -/
def mkCounts (q r ry sc f t tot : Nat) : List (String × Nat) :=
  [("queued", q), ("running", r), ("retrying", ry), ("succeeded", sc),
   ("failed", f), ("timed_out", t), ("total", tot)]

/-- One loop iteration of the tally: counts[status] += 1 guarded by
status in counts.  A key absent from the dictionary leaves it unchanged. -/
def bump (c : List (String × Nat)) (k : String) : List (String × Nat) :=
  if (c.lookup k).isSome then
    c.map (fun p => if p.1 = k then (p.1, p.2 + 1) else p)
  else c

/-- shard_counts(shards) from s3_queue_worker.py: start from the seven-key
dictionary with total = len(shards) and bump the normalised status of each
shard when it is one of the dictionary keys. -/
def shard_counts (shards : List ShardObj) : List (String × Nat) :=
  shards.foldl (fun c s => bump c (normStatus s.status)) (mkCounts 0 0 0 0 0 0 shards.length)

/-- count_states(shards) from s3_queue_init.py: same tally as shard_counts
(the loop skips statuses that are not dictionary keys and increments the
rest). -/
def count_states (shards : List ShardObj) : List (String × Nat) :=
  shards.foldl (fun c s => bump c (normStatus s.status)) (mkCounts 0 0 0 0 0 0 shards.length)

/-- Reading counts[k] (defaulting to 0, though all seven keys are always
present in the dictionaries the scripts build). -/
def getCount (c : List (String × Nat)) (k : String) : Nat := (c.lookup k).getD 0

/-- Number of shards whose normalised status equals k. -/
def statusCount (shards : List ShardObj) (k : String) : Nat :=
  shards.countP (fun s => normStatus s.status == k)

theorem bump_mkCounts (q r ry sc f t tot : Nat) (st : String) :
    bump (mkCounts q r ry sc f t tot) st =
      mkCounts (q + if st = "queued" then 1 else 0)
        (r + if st = "running" then 1 else 0)
        (ry + if st = "retrying" then 1 else 0)
        (sc + if st = "succeeded" then 1 else 0)
        (f + if st = "failed" then 1 else 0)
        (t + if st = "timed_out" then 1 else 0)
        (tot + if st = "total" then 1 else 0) := by
  by_cases h1 : st = "queued"
  · subst h1; rfl
  by_cases h2 : st = "running"
  · subst h2; rfl
  by_cases h3 : st = "retrying"
  · subst h3; rfl
  by_cases h4 : st = "succeeded"
  · subst h4; rfl
  by_cases h5 : st = "failed"
  · subst h5; rfl
  by_cases h6 : st = "timed_out"
  · subst h6; rfl
  by_cases h7 : st = "total"
  · subst h7; rfl
  have b1 : (st == "queued") = false := beq_eq_false_iff_ne.mpr h1
  have b2 : (st == "running") = false := beq_eq_false_iff_ne.mpr h2
  have b3 : (st == "retrying") = false := beq_eq_false_iff_ne.mpr h3
  have b4 : (st == "succeeded") = false := beq_eq_false_iff_ne.mpr h4
  have b5 : (st == "failed") = false := beq_eq_false_iff_ne.mpr h5
  have b6 : (st == "timed_out") = false := beq_eq_false_iff_ne.mpr h6
  have b7 : (st == "total") = false := beq_eq_false_iff_ne.mpr h7
  have hl : (List.lookup st (mkCounts q r ry sc f t tot)) = none := by
    simp [mkCounts, List.lookup, b1, b2, b3, b4, b5, b6, b7]
  simp [bump, hl, mkCounts, h1, h2, h3, h4, h5, h6, h7]

theorem statusCount_cons (s : ShardObj) (rest : List ShardObj) (k : String) :
    statusCount (s :: rest) k =
      (if normStatus s.status = k then 1 else 0) + statusCount rest k := by
  by_cases h : normStatus s.status = k <;> (simp [statusCount, List.countP_cons, h]; try omega)

theorem foldl_bump_char (shards : List ShardObj) (q r ry sc f t tot : Nat) :
    shards.foldl (fun c s => bump c (normStatus s.status)) (mkCounts q r ry sc f t tot) =
      mkCounts (q + statusCount shards "queued") (r + statusCount shards "running")
        (ry + statusCount shards "retrying") (sc + statusCount shards "succeeded")
        (f + statusCount shards "failed") (t + statusCount shards "timed_out")
        (tot + statusCount shards "total") := by
  induction shards generalizing q r ry sc f t tot with
  | nil => simp [statusCount]
  | cons s rest ih =>
    rw [List.foldl_cons, bump_mkCounts, ih]
    simp only [statusCount_cons, mkCounts, List.cons.injEq, Prod.mk.injEq, true_and, and_true]
    refine ⟨?_, ?_, ?_, ?_, ?_, ?_, ?_⟩ <;> · split_ifs <;> omega

theorem shard_counts_char (shards : List ShardObj) :
    shard_counts shards =
      mkCounts (statusCount shards "queued") (statusCount shards "running")
        (statusCount shards "retrying") (statusCount shards "succeeded")
        (statusCount shards "failed") (statusCount shards "timed_out")
        (shards.length + statusCount shards "total") := by
  have h := foldl_bump_char shards 0 0 0 0 0 0 shards.length
  simpa [shard_counts] using h

/-- Worker configuration drawn from the environment in QueueWorker.__init__
(only the fields the modelled methods read). -/
structure WorkerCfg where
  bucket : String := ""
  run_id : String := ""
  benchmark_uuid : String := ""
  lock_owner : String := ""
  max_parallel_instances : Int := 1
  shard_max_attempts : Int := 3
  worker_id : String := ""
  deriving Repr, DecidableEq

/-- Fields of a pre-existing status/run.json that the aggregators carry
over (created_at and completed_at); the rest of the old payload is
overwritten.  An absent or unreadable object is the default value. -/
structure ExistingRunStatus where
  created_at : String := ""
  completed_at : Option String := none
  deriving Repr, DecidableEq

/-- The status/run.json payload written by refresh_run_status and
update_run_status. -/
structure RunStatusPayload where
  mode : String
  queue_mode : Bool
  run_id : String
  benchmark_uuid : String
  state : String
  terminal : Bool
  counts : List (String × Nat)
  requested_shards : Nat
  max_parallel_instances : Int
  shard_max_attempts : Int
  lock_owner : String
  updated_at : String
  created_at : String
  completed_at : Option String
  deriving Repr, DecidableEq

/-- QueueWorker.refresh_run_status (s3_queue_worker.py lines 318-368):
recount the shard objects, derive state and terminal, and build the
payload written back to status/run.json (the event emission depends only
on the returned state and is modelled separately from the payload). -/
def QueueWorker.refresh_run_status (cfg : WorkerCfg) (existing : ExistingRunStatus)
    (shards : List ShardObj) (nowIso : String) : RunStatusPayload :=
  let counts := shard_counts shards
  let inflight := getCount counts "queued" + getCount counts "running" + getCount counts "retrying"
  let terminal : Bool := decide (inflight = 0 ∧ 0 < getCount counts "total")
  let state : String :=
    if terminal then
      if 0 < getCount counts "failed" + getCount counts "timed_out" then "failed" else "succeeded"
    else "running"
  { mode := "s3_queue"
    queue_mode := true
    run_id := cfg.run_id
    benchmark_uuid := cfg.benchmark_uuid
    state := state
    terminal := terminal
    counts := counts
    requested_shards := getCount counts "total"
    max_parallel_instances := cfg.max_parallel_instances
    shard_max_attempts := cfg.shard_max_attempts
    lock_owner := cfg.lock_owner
    updated_at := nowIso
    created_at := if pyStrip existing.created_at = "" then nowIso else pyStrip existing.created_at
    completed_at :=
      if terminal then
        some (if pyStrip (existing.completed_at.getD "") = "" then nowIso
              else pyStrip (existing.completed_at.getD ""))
      else
        match existing.completed_at with
        | some s => if s = "" then none else some s
        | none => none }

/-- update_run_status (s3_queue_init.py lines 177-226): the same counting
and state derivation performed by the initializer. -/
def update_run_status (run_id benchmark_uuid lock_owner : String)
    (max_parallel_instances shard_max_attempts : Int) (existing : ExistingRunStatus)
    (shards : List ShardObj) (nowIso : String) : RunStatusPayload :=
  let counts := count_states shards
  let inflight := getCount counts "queued" + getCount counts "running" + getCount counts "retrying"
  let terminal : Bool := decide (inflight = 0 ∧ 0 < getCount counts "total")
  let state : String :=
    if terminal then
      if 0 < getCount counts "failed" + getCount counts "timed_out" then "failed" else "succeeded"
    else "running"
  { mode := "s3_queue"
    queue_mode := true
    run_id := run_id
    benchmark_uuid := benchmark_uuid
    state := state
    terminal := terminal
    counts := counts
    requested_shards := getCount counts "total"
    max_parallel_instances := max_parallel_instances
    shard_max_attempts := shard_max_attempts
    lock_owner := lock_owner
    updated_at := nowIso
    created_at := if pyStrip existing.created_at = "" then nowIso else pyStrip existing.created_at
    completed_at :=
      if terminal then
        some (if pyStrip (existing.completed_at.getD "") = "" then nowIso
              else pyStrip (existing.completed_at.getD ""))
      else
        match existing.completed_at with
        | some s => if s = "" then none else some s
        | none => none }

theorem run_status_payload_state_char (p : RunStatusPayload)
    (hp : ∃ counts, p.state =
        (if decide ((getCount counts "queued" + getCount counts "running" +
              getCount counts "retrying") = 0 ∧ 0 < getCount counts "total") then
          if 0 < getCount counts "failed" + getCount counts "timed_out" then "failed"
          else "succeeded"
        else "running") ∧
      p.terminal = decide ((getCount counts "queued" + getCount counts "running" +
          getCount counts "retrying") = 0 ∧ 0 < getCount counts "total") ∧
      p.counts = counts) :
    (p.state = "running" ↔
      (0 < getCount p.counts "queued" + getCount p.counts "running" + getCount p.counts "retrying" ∨
        getCount p.counts "total" = 0)) ∧
    (p.state = "failed" ↔
      (getCount p.counts "queued" + getCount p.counts "running" + getCount p.counts "retrying" = 0 ∧
        0 < getCount p.counts "total" ∧
        0 < getCount p.counts "failed" + getCount p.counts "timed_out")) ∧
    (p.state = "succeeded" ↔
      (getCount p.counts "queued" + getCount p.counts "running" + getCount p.counts "retrying" = 0 ∧
        0 < getCount p.counts "total" ∧
        getCount p.counts "failed" + getCount p.counts "timed_out" = 0)) ∧
    (p.terminal = true ↔
      (getCount p.counts "queued" + getCount p.counts "running" + getCount p.counts "retrying" = 0 ∧
        0 < getCount p.counts "total")) := by
  obtain ⟨c, hs, ht, hc⟩ := hp
  subst hc
  rw [hs, ht]
  refine ⟨?_, ?_, ?_, ?_⟩ <;> (try split_ifs with h1 h2) <;> simp_all <;> omega

/-- C1: For every set of shard payloads, the published run status satisfies
the derivation: with inflight = queued + running + retrying, state = running
when inflight > 0 or total = 0; otherwise state = failed when at least one
shard counts as failed or timed_out and state = succeeded otherwise; and
terminal = (inflight = 0 and total > 0).  Stated for the payload built by
the worker (QueueWorker.refresh_run_status) and by the initializer
(update_run_status). -/
theorem C1_run_status_derivation (cfg : WorkerCfg) (existing existing2 : ExistingRunStatus)
    (shards : List ShardObj) (nowIso now2 run_id benchmark_uuid lock_owner : String)
    (mpi sma : Int) :
    (let p := QueueWorker.refresh_run_status cfg existing shards nowIso
     (p.state = "running" ↔
       (0 < getCount p.counts "queued" + getCount p.counts "running" + getCount p.counts "retrying" ∨
         getCount p.counts "total" = 0)) ∧
     (p.state = "failed" ↔
       (getCount p.counts "queued" + getCount p.counts "running" + getCount p.counts "retrying" = 0 ∧
         0 < getCount p.counts "total" ∧
         0 < getCount p.counts "failed" + getCount p.counts "timed_out")) ∧
     (p.state = "succeeded" ↔
       (getCount p.counts "queued" + getCount p.counts "running" + getCount p.counts "retrying" = 0 ∧
         0 < getCount p.counts "total" ∧
         getCount p.counts "failed" + getCount p.counts "timed_out" = 0)) ∧
     (p.terminal = true ↔
       (getCount p.counts "queued" + getCount p.counts "running" + getCount p.counts "retrying" = 0 ∧
         0 < getCount p.counts "total"))) ∧
    (let p := update_run_status run_id benchmark_uuid lock_owner mpi sma existing2 shards now2
     (p.state = "running" ↔
       (0 < getCount p.counts "queued" + getCount p.counts "running" + getCount p.counts "retrying" ∨
         getCount p.counts "total" = 0)) ∧
     (p.state = "failed" ↔
       (getCount p.counts "queued" + getCount p.counts "running" + getCount p.counts "retrying" = 0 ∧
         0 < getCount p.counts "total" ∧
         0 < getCount p.counts "failed" + getCount p.counts "timed_out")) ∧
     (p.state = "succeeded" ↔
       (getCount p.counts "queued" + getCount p.counts "running" + getCount p.counts "retrying" = 0 ∧
         0 < getCount p.counts "total" ∧
         getCount p.counts "failed" + getCount p.counts "timed_out" = 0)) ∧
     (p.terminal = true ↔
       (getCount p.counts "queued" + getCount p.counts "running" + getCount p.counts "retrying" = 0 ∧
         0 < getCount p.counts "total"))) :=
  ⟨run_status_payload_state_char _ ⟨shard_counts shards, rfl, rfl, rfl⟩,
   run_status_payload_state_char _ ⟨count_states shards, rfl, rfl, rfl⟩⟩

/-- The shard used in the C7 counterexample: its status mystery is outside
the tracked set. -/
def c7shard : ShardObj := { shard_key := "s1", fuzzer_key := "f", status := "mystery" }

/-- C7 is refuted on the code: a shard whose status is outside the tracked
set is not tallied under an unknown key — the counts dictionary built by
shard_counts never contains such a key (the lookup returns none) — even
though the shard still contributes to total. -/
theorem C7_counterexample :
    (shard_counts [c7shard]).lookup "unknown" = none ∧
    (shard_counts [c7shard]).lookup "total" = some 1 := by decide

/-- C7 (amended): a shard whose status is outside the tracked set is
skipped by the tally — counts has no unknown key, each named counter counts
exactly the shards whose normalised status equals it, and every shard
(recognised or not) contributes to total through the list length (a shard
whose status is literally total additionally increments the total key);
the scan continues past unrecognised statuses, and the initializer tally
count_states agrees with the worker tally shard_counts. -/
theorem C7_unknown_status_tally (shards : List ShardObj) :
    (shard_counts shards).lookup "unknown" = none ∧
    (shard_counts shards).lookup "queued" = some (statusCount shards "queued") ∧
    (shard_counts shards).lookup "running" = some (statusCount shards "running") ∧
    (shard_counts shards).lookup "retrying" = some (statusCount shards "retrying") ∧
    (shard_counts shards).lookup "succeeded" = some (statusCount shards "succeeded") ∧
    (shard_counts shards).lookup "failed" = some (statusCount shards "failed") ∧
    (shard_counts shards).lookup "timed_out" = some (statusCount shards "timed_out") ∧
    (shard_counts shards).lookup "total" = some (shards.length + statusCount shards "total") ∧
    count_states shards = shard_counts shards := by
  have h := shard_counts_char shards
  refine ⟨?_, ?_, ?_, ?_, ?_, ?_, ?_, ?_, rfl⟩ <;> (rw [h]; rfl)

/-- int(str) applied to a run id (run_completion.py): strip surrounding
whitespace, allow one leading sign, then decimal digits; none models the
ValueError path. -/
def parseIntStr (s : String) : Option Int :=
  let digitsVal : List Char → Option Int := fun t =>
    if t ≠ [] ∧ t.all Char.isDigit then
      some (t.foldl (fun acc c => acc * 10 + ((c.toNat : Int) - 48)) 0)
    else none
  match (pyStrip s).data with
  | '-' :: rest => (digitsVal rest).map (fun n => -n)
  | '+' :: rest => digitsVal rest
  | ds => digitsVal ds

/-- int(x) on a non-negative or negative rational: truncation toward zero,
as Python int() applied to a float. -/
def pyTruncInt (q : ℚ) : Int := q.num.tdiv (q.den : Int)

/-- TERMINAL_STATES from run_completion.py. -/
def TERMINAL_STATES : List String := ["succeeded", "failed", "timed_out", "completed"]

/-- The fields of status/run.json that check_run_completion reads.  The
terminal key is coerced through bool() and modelled as Bool (absent key =
false); queue_mode likewise. -/
structure StatusObj where
  state : String := ""
  terminal : Bool := false
  mode : String := ""
  queue_mode : Bool := false
  deriving Repr, DecidableEq

/-- The field of manifest.json that check_run_completion reads.  none for
timeout_hours models an absent or unparseable value (safe_float then
returns the default 24). -/
structure ManifestObj where
  timeout_hours : Option ℚ := none
  deriving Repr, DecidableEq

/-- The Completion dataclass of run_completion.py. -/
structure Completion where
  run_id : String
  benchmark_uuid : String
  complete : Bool
  reason : String
  timeout_hours : Option ℚ
  queue_mode : Bool
  status_state : String
  status_terminal : Bool
  deriving Repr, DecidableEq

/-- status_state as computed in check_run_completion. -/
def status_state_of (status : Option StatusObj) : String :=
  match status with
  | some st => normStatus st.state
  | none => ""

/-- status_terminal as computed in check_run_completion: the terminal flag,
or a state name belonging to TERMINAL_STATES. -/
def status_terminal_of (status : Option StatusObj) : Bool :=
  match status with
  | some st => st.terminal || TERMINAL_STATES.contains (normStatus st.state)
  | none => false

/-- queue_mode as computed in check_run_completion. -/
def queue_mode_of (status : Option StatusObj) : Bool :=
  match status with
  | some st => (normStatus st.mode == "s3_queue") || st.queue_mode
  | none => false

/-- check_run_completion (run_completion.py lines 98-182).  The three
objects read from the bucket (status/run.json, manifest.json and the legacy
logs/... manifest) are inputs; now is the clock reading. -/
def check_run_completion (run_id benchmark_uuid : String) (grace_seconds now : Int)
    (status : Option StatusObj) (manifest legacy_manifest : Option ManifestObj) : Completion :=
  let manifestEff := match manifest with
    | some m => some m
    | none => legacy_manifest
  let timeout_hours : Option ℚ := manifestEff.map (fun m => m.timeout_hours.getD 24)
  let st_state := status_state_of status
  let st_term := status_terminal_of status
  let qm := queue_mode_of status
  if st_term then
    { run_id := run_id, benchmark_uuid := benchmark_uuid, complete := true,
      reason := "status_terminal", timeout_hours := timeout_hours, queue_mode := qm,
      status_state := st_state, status_terminal := true }
  else
    match parseIntStr run_id with
    | none =>
      { run_id := run_id, benchmark_uuid := benchmark_uuid, complete := false,
        reason := "invalid_run_id", timeout_hours := timeout_hours, queue_mode := qm,
        status_state := st_state, status_terminal := st_term }
    | some run_start =>
      match timeout_hours with
      | none =>
        { run_id := run_id, benchmark_uuid := benchmark_uuid, complete := false,
          reason := "manifest_missing", timeout_hours := none, queue_mode := qm,
          status_state := st_state, status_terminal := st_term }
      | some th =>
        let deadline := run_start + pyTruncInt (th * 3600) + grace_seconds
        { run_id := run_id, benchmark_uuid := benchmark_uuid,
          complete := decide (now ≥ deadline),
          reason := if now ≥ deadline then "legacy_deadline_met" else "legacy_deadline_pending",
          timeout_hours := some th, queue_mode := qm,
          status_state := st_state, status_terminal := st_term }

/-- The status object of the C5 counterexample: terminal is false but the
state name is in TERMINAL_STATES. -/
def c5status : StatusObj := { state := "succeeded", terminal := false }

/-- C5 is refuted on the code: a run.json whose terminal field is false but
whose state is succeeded is still reported complete with reason
status_terminal (check_run_completion also accepts a terminal state name),
so the oracle does not proceed to the fallback there even though terminal
is not true. -/
theorem C5_counterexample :
    c5status.terminal = false ∧
    (check_run_completion "123" "u" 0 0 (some c5status) none none).reason = "status_terminal" ∧
    (check_run_completion "123" "u" 0 0 (some c5status) none none).complete = true := by
  decide

/-- C5 (amended): the oracle reports complete with reason status_terminal
if and only if status/run.json is present and either carries terminal =
true or carries a state whose normalised name is one of TERMINAL_STATES
(succeeded, failed, timed_out, completed); otherwise it proceeds to the
manifest/deadline fallback and never uses that reason. -/
theorem C5_status_terminal_iff (run_id benchmark_uuid : String) (grace now : Int)
    (status : Option StatusObj) (manifest legacy : Option ManifestObj) :
    ((check_run_completion run_id benchmark_uuid grace now status manifest legacy).reason =
        "status_terminal" ∧
      (check_run_completion run_id benchmark_uuid grace now status manifest legacy).complete =
        true) ↔
      status_terminal_of status = true := by
  by_cases h : status_terminal_of status = true
  · simp [check_run_completion, h]
  · have h' : status_terminal_of status = false := by
      revert h; cases status_terminal_of status <;> simp
    rw [h']
    simp only [check_run_completion, h', if_false, Bool.false_eq_true]
    cases hp : parseIntStr run_id with
    | none => simp
    | some run_start =>
      cases hm : manifest with
      | some m => simp [hm]; split_ifs <;> simp
      | none =>
        cases hl : legacy with
        | none => simp
        | some m => simp; split_ifs <;> simp

/-- C6 is refuted on the code: for a run with a non-integer run_id and no
manifest (and no run status), check_run_completion reports reason
invalid_run_id, not manifest_missing — the run_id parse happens before the
manifest check. -/
theorem C6_counterexample :
    (check_run_completion "not-a-number" "u" 0 0 none none none).reason = "invalid_run_id" ∧
    ¬(check_run_completion "not-a-number" "u" 0 0 none none none).reason = "manifest_missing" := by
  decide

/-- C6 (amended): when the run status is absent or non-terminal, the oracle
parses run_id first: a non-integer run_id is reported with reason
invalid_run_id regardless of the manifest, and manifest_missing is reported
exactly when run_id parses as an integer and both the manifest and the
legacy manifest are absent. -/
theorem C6_invalid_run_id_before_manifest (run_id benchmark_uuid : String) (grace now : Int)
    (status : Option StatusObj) (manifest legacy : Option ManifestObj) :
    ((check_run_completion run_id benchmark_uuid grace now status manifest legacy).reason =
        "invalid_run_id" ↔
      (status_terminal_of status = false ∧ parseIntStr run_id = none)) ∧
    ((check_run_completion run_id benchmark_uuid grace now status manifest legacy).reason =
        "manifest_missing" ↔
      (status_terminal_of status = false ∧ (parseIntStr run_id).isSome = true ∧
        manifest = none ∧ legacy = none)) := by
  by_cases h : status_terminal_of status = true
  · simp [check_run_completion, h]
  · have h' : status_terminal_of status = false := by
      revert h; cases status_terminal_of status <;> simp
    rw [h']
    simp only [check_run_completion, h', if_false, Bool.false_eq_true]
    cases hp : parseIntStr run_id with
    | none => simp
    | some run_start =>
      cases hm : manifest with
      | some m => simp [hm]; split_ifs <;> simp
      | none =>
        cases hl : legacy with
        | none => simp
        | some m => simp; split_ifs <;> simp

/-- C10: when runs/<run_id>/<benchmark_uuid>/manifest.json is absent but
the legacy logs/... manifest exists, check_run_completion uses the legacy
manifest: its timeout_hours (defaulting to 24) is reported and used for the
deadline computation, and the run is not reported with reason
manifest_missing.  Stated on the deadline path (status absent or
non-terminal and an integer run_id). -/
theorem C10_legacy_manifest_fallback (run_id benchmark_uuid : String) (grace now : Int)
    (status : Option StatusObj) (m : ManifestObj) (run_start : Int)
    (hterm : status_terminal_of status = false)
    (hrid : parseIntStr run_id = some run_start) :
    (check_run_completion run_id benchmark_uuid grace now status none (some m)).timeout_hours =
      some (m.timeout_hours.getD 24) ∧
    ¬(check_run_completion run_id benchmark_uuid grace now status none (some m)).reason =
      "manifest_missing" ∧
    (check_run_completion run_id benchmark_uuid grace now status none (some m)).complete =
      decide (now ≥ run_start + pyTruncInt ((m.timeout_hours.getD 24) * 3600) + grace) := by
  simp only [check_run_completion, hterm, if_false, Bool.false_eq_true, hrid,
    Option.map_some']
  split_ifs <;> simp_all

/-- Witness for C10 at a concrete input: run 1000, legacy manifest with
timeout_hours 1, grace 50 and clock 5000 (past the deadline 4650). -/
theorem C10_legacy_manifest_fallback_witness :
    (check_run_completion "1000" "u" 50 5000 none none
        (some { timeout_hours := some 1 })).timeout_hours = some 1 ∧
    ¬(check_run_completion "1000" "u" 50 5000 none none
        (some { timeout_hours := some 1 })).reason = "manifest_missing" ∧
    (check_run_completion "1000" "u" 50 5000 none none
        (some { timeout_hours := some 1 })).complete = true := by
  have h := C10_legacy_manifest_fallback "1000" "u" 50 5000 none { timeout_hours := some 1 }
    1000 (by decide) (by decide)
  refine ⟨h.1, h.2.1, ?_⟩
  rw [h.2.2]
  have h36 : ((some (1:ℚ)).getD 24) * 3600 = (3600:ℚ) := by norm_num
  rw [h36]
  have ht : pyTruncInt (3600:ℚ) = 3600 := by
    simp [pyTruncInt, Rat.num_ofNat, Rat.den_ofNat]
  rw [ht]
  decide

/-- The lock object (runs/_control/global-lock.json) from s3_lock.py.
expires_at_epoch is the numeric field; expires_at holds the epoch parsed
from the ISO string fallback (none models an absent or unparseable
value, as in parse_epoch). -/
structure LockObj where
  owner : String := ""
  run_id : String := ""
  benchmark_uuid : String := ""
  lease_seconds : Int := 0
  generation : Option Int := none
  token : String := ""
  updated_by : String := ""
  acquired_at : String := ""
  acquired_at_epoch : Int := 0
  expires_at : Option Int := none
  expires_at_epoch : Option Int := none
  deriving Repr, DecidableEq

/-- lock_expired (s3_lock.py lines 113-121): a missing lock or one with no
parseable expiry is expired; otherwise the comparison now >= expiry is
inclusive. -/
def lock_expired (lock : Option LockObj) (now_epoch : Int) : Bool :=
  match lock with
  | none => true
  | some l =>
    match l.expires_at_epoch with
    | some e => decide (now_epoch ≥ e)
    | none =>
      match l.expires_at with
      | some e => decide (now_epoch ≥ e)
      | none => true

/-- build_payload (s3_lock.py lines 124-147): the renewed lock payload.
The fresh uuid token and the ISO rendering of now are inputs; the expiry
is now plus max(lease_seconds, 1). -/
def build_payload (owner run_id benchmark_uuid : String)
    (lease_seconds previous_generation : Int) (actor : String) (now : Int)
    (token nowIso : String) : LockObj :=
  { owner := owner, run_id := run_id, benchmark_uuid := benchmark_uuid,
    lease_seconds := lease_seconds,
    generation := some (previous_generation + 1),
    token := token, updated_by := actor,
    acquired_at := nowIso, acquired_at_epoch := now,
    expires_at := some (now + max lease_seconds 1),
    expires_at_epoch := some (now + max lease_seconds 1) }

/-- Result of the heartbeat command: the printed ok flag and reason, the
process return code, and the confirmed lock on success. -/
structure HeartbeatOut where
  ok : Bool
  reason : String
  rc : Int
  lock : Option LockObj := none
  deriving Repr, DecidableEq

/-- cmd_heartbeat (s3_lock.py lines 235-305) over a sequential object
store: the single lock slot is read, conditionally overwritten, and
re-read (the re-read returns the state just written).  Returns the printed
result and the final store. -/
def cmd_heartbeat (owner run_id benchmark_uuid : String) (lease_seconds : Int)
    (actor : String) (now_epoch : Int) (token nowIso : String)
    (store : Option LockObj) : HeartbeatOut × Option LockObj :=
  let lease := max lease_seconds 1
  match store with
  | none => ({ ok := false, reason := "missing", rc := 2 }, store)
  | some lock =>
    let current_owner := lock.owner
    let expired := lock_expired (some lock) now_epoch
    if current_owner ≠ owner ∧ expired = false then
      ({ ok := false, reason := "owner_mismatch", rc := 2 }, store)
    else if current_owner ≠ owner then
      ({ ok := false, reason := "expired_or_stolen", rc := 2 }, store)
    else
      let previous_generation := lock.generation.getD 0
      let payload := build_payload owner run_id benchmark_uuid lease
        previous_generation actor now_epoch token nowIso
      let store2 : Option LockObj := some payload
      match store2 with
      | none => ({ ok := false, reason := "missing_after_write", rc := 2 }, store2)
      | some confirmed =>
        if confirmed.owner ≠ owner then
          ({ ok := false, reason := "owner_mismatch_after_write", rc := 2 }, store2)
        else ({ ok := true, reason := "", rc := 0, lock := some confirmed }, store2)

/-- C9: a heartbeat issued by the current owner succeeds even when
now >= expires_at_epoch (so with heartbeat_seconds = lease_seconds the
lease is still renewed), writing a payload with incremented generation, the
fresh token, and expires_at_epoch = now + lease; it fails exactly when the
lock object is missing or a different owner holds it. -/
theorem C9_heartbeat_owner_renewal (owner run_id benchmark_uuid actor token nowIso : String)
    (lease_seconds now_epoch : Int) (store : Option LockObj) (hl : 1 ≤ lease_seconds) :
    ((cmd_heartbeat owner run_id benchmark_uuid lease_seconds actor now_epoch token nowIso
          store).1.ok = false ↔
      (store = none ∨ ∃ l, store = some l ∧ l.owner ≠ owner)) ∧
    (∀ l, store = some l → l.owner = owner →
      (cmd_heartbeat owner run_id benchmark_uuid lease_seconds actor now_epoch token nowIso
          store).1.ok = true ∧
      (cmd_heartbeat owner run_id benchmark_uuid lease_seconds actor now_epoch token nowIso
          store).1.rc = 0 ∧
      (cmd_heartbeat owner run_id benchmark_uuid lease_seconds actor now_epoch token nowIso
          store).2 =
        some (build_payload owner run_id benchmark_uuid (max lease_seconds 1)
          (l.generation.getD 0) actor now_epoch token nowIso) ∧
      (build_payload owner run_id benchmark_uuid (max lease_seconds 1) (l.generation.getD 0)
          actor now_epoch token nowIso).generation = some (l.generation.getD 0 + 1) ∧
      (build_payload owner run_id benchmark_uuid (max lease_seconds 1) (l.generation.getD 0)
          actor now_epoch token nowIso).token = token ∧
      (build_payload owner run_id benchmark_uuid (max lease_seconds 1) (l.generation.getD 0)
          actor now_epoch token nowIso).expires_at_epoch = some (now_epoch + lease_seconds)) := by
  cases store with
  | none =>
    refine ⟨by simp [cmd_heartbeat], ?_⟩
    intro l h
    simp at h
  | some l =>
    by_cases ho : l.owner = owner
    · constructor
      · simp [cmd_heartbeat, ho, build_payload]
      · intro l' h1 h2
        cases h1
        refine ⟨by simp [cmd_heartbeat, ho, build_payload], by simp [cmd_heartbeat, ho, build_payload],
          by simp [cmd_heartbeat, ho, build_payload], by simp [build_payload], rfl, ?_⟩
        simp [build_payload]
        omega
    · constructor
      · cases hexp : lock_expired (some l) now_epoch with
        | false => simp [cmd_heartbeat, ho, hexp]
        | true => simp [cmd_heartbeat, ho, hexp]
      · intro l' h1 h2
        cases h1
        exact absurd h2 ho

/-- The lock object of the C9 witness: owned by o, expiring at epoch 900. -/
def c9lock : LockObj :=
  { owner := "o", generation := some 4, token := "old", expires_at_epoch := some 900 }

/-- Witness for C9 at a concrete input: at now = 900 the lock counts as
expired (inclusive comparison), yet the heartbeat by its owner succeeds and
renews the lease with lease 60. -/
theorem C9_heartbeat_owner_renewal_witness :
    lock_expired (some c9lock) 900 = true ∧
    (cmd_heartbeat "o" "r" "u" 60 "a" 900 "tok" "n" (some c9lock)).1.ok = true ∧
    (cmd_heartbeat "o" "r" "u" 60 "a" 900 "tok" "n" (some c9lock)).2 =
      some (build_payload "o" "r" "u" 60 4 "a" 900 "tok" "n") := by
  have h := (C9_heartbeat_owner_renewal "o" "r" "u" "a" "tok" "n" 60 900 (some c9lock)
    (by decide)).2 c9lock rfl rfl
  have hmax : (max (60:Int) 1) = 60 := by decide
  refine ⟨by decide, h.1, ?_⟩
  have h3 := h.2.2.1
  rwa [hmax] at h3

/-- Decimal digits of a positive number, most significant first; the fuel
argument (initially the number itself) makes the recursion structural. -/
def natToDigits : Nat → Nat → List Char
  | 0, _ => []
  | _ + 1, 0 => []
  | fuel + 1, n => natToDigits fuel (n / 10) ++ [Char.ofNat (48 + n % 10)]

/-- str(n) for a natural number. -/
def natToStr (n : Nat) : String :=
  if n = 0 then "0" else String.mk (natToDigits n n)

/-- str(i) for a Python integer. -/
def intToStr (i : Int) : String :=
  if i < 0 then "-" ++ natToStr i.natAbs else natToStr i.natAbs

/-- key.rsplit("/", 1)[-1]: the final path segment. -/
def lastSegment (s : String) : String :=
  String.mk ((s.data.reverse.takeWhile (fun c => c ≠ '/')).reverse)

/-- str.removesuffix(".json"). -/
def removeJsonSuffix (s : String) : String :=
  if ".json".data.isSuffixOf s.data then String.mk (s.data.take (s.data.length - 5)) else s

/-- An event payload written under status/events/ (emit_event).  The
call-site details dictionaries are abbreviated to the reason entry used by
the exhausted-shard path; the timestamped object keys are not modelled. -/
structure EventPayload where
  event_type : String := ""
  run_id : String := ""
  benchmark_uuid : String := ""
  worker_id : String := ""
  shard_key : String := ""
  status : String := ""
  reason : String := ""
  deriving Repr, DecidableEq

/-- A DLQ summary payload (QueueWorker.dlq, s3_queue_worker.py 537-552). -/
structure DlqPayload where
  run_id : String := ""
  benchmark_uuid : String := ""
  shard_key : String := ""
  status : String := ""
  attempt : Int := 0
  max_attempts : Int := 0
  exit_code : Int := 0
  worker_id : String := ""
  failed_at : String := ""
  deriving Repr, DecidableEq

/-- One recorded object-store write performed by the worker. -/
inductive S3Write where
  | putShard (key : String) (shard : ShardObj)
  | putEvent (event : EventPayload)
  | putDlq (key : String) (payload : DlqPayload)
  deriving Repr, DecidableEq

/-- Whether a write is a DLQ object put. -/
def S3Write.isDlqPut : S3Write → Bool
  | .putDlq _ _ => true
  | _ => false

/-- Whether a write is a shard object put. -/
def S3Write.isShardPut : S3Write → Bool
  | .putShard _ _ => true
  | _ => false

/-- Whether a write stores a shard object in state failed. -/
def S3Write.putsFailedShard : S3Write → Bool
  | .putShard _ s => s.status == "failed"
  | _ => false

/-- The dlq/ key space of a run (self.dlq_prefix in QueueWorker.__init__). -/
def QueueWorker.dlqRoot (cfg : WorkerCfg) : String :=
  "runs/" ++ cfg.run_id ++ "/" ++ cfg.benchmark_uuid ++ "/dlq/"

/-- An emit_event payload for this worker. -/
def mkEvent (cfg : WorkerCfg) (shard_key status event_type reason : String) : EventPayload :=
  { event_type := event_type, run_id := cfg.run_id, benchmark_uuid := cfg.benchmark_uuid,
    worker_id := cfg.worker_id, shard_key := shard_key, status := status, reason := reason }

/-- QueueWorker.dlq (s3_queue_worker.py lines 537-552): the DLQ object key
and payload for a permanently failed attempt. -/
def QueueWorker.dlq (cfg : WorkerCfg) (nowIso : String) (shard : ShardObj)
    (exit_code : Int) (status : String) : String × DlqPayload :=
  let shard_key := pyStrip shard.shard_key
  let attempt := parse_int shard.attempt 1
  (QueueWorker.dlqRoot cfg ++ sanitize shard_key ++ "-" ++ intToStr attempt ++ ".json",
   { run_id := cfg.run_id, benchmark_uuid := cfg.benchmark_uuid, shard_key := shard_key,
     status := status, attempt := attempt,
     max_attempts := parse_int shard.max_attempts cfg.shard_max_attempts,
     exit_code := exit_code, worker_id := cfg.worker_id, failed_at := nowIso })

/-- QueueWorker.complete_shard (s3_queue_worker.py lines 554-618): write the
transition for a finished runner with exit code exit_code.  Returns the
updated shard object and the trace of writes (one shard put, one event,
plus a DLQ put on the exhausted-failure path).  now is the completion
epoch; nowIso and retryIso are the ISO renderings of now and of the retry
time supplied by the clock. -/
def QueueWorker.complete_shard (cfg : WorkerCfg) (key : String) (shard : ShardObj)
    (exit_code : Int) (now : Int) (nowIso retryIso : String) : ShardObj × List S3Write :=
  let shard_key := pyStrip shard.shard_key
  let attempt := parse_int shard.attempt 1
  let max_attempts := max (parse_int shard.max_attempts cfg.shard_max_attempts) 1
  let terminal_status : String :=
    if exit_code = 0 then "succeeded" else if exit_code = 124 then "timed_out" else "failed"
  let base :=
    { shard with
        updated_at := nowIso
        finished_at := nowIso
        last_worker_id := cfg.worker_id
        last_exit_code := some exit_code
        claim_token := "" }
  if terminal_status = "succeeded" then
    let s :=
      { base with
          status := "succeeded"
          retry_available_at_epoch := some 0
          retry_available_at := "" }
    (s, [S3Write.putShard key s,
      S3Write.putEvent (mkEvent cfg shard_key "succeeded" "shard_status" "")])
  else if attempt < max_attempts then
    let retry_seconds : Int := min 300 ((2 ^ (max (attempt - 1) 0).toNat) * 30)
    let s :=
      { base with
          status := "retrying"
          retry_available_at_epoch := some (now + retry_seconds)
          retry_available_at := retryIso }
    (s, [S3Write.putShard key s,
      S3Write.putEvent (mkEvent cfg shard_key "retrying" "shard_status" "")])
  else
    let s :=
      { base with
          status := terminal_status
          retry_available_at_epoch := some 0
          retry_available_at := "" }
    let d := QueueWorker.dlq cfg nowIso s exit_code terminal_status
    (s, [S3Write.putShard key s,
      S3Write.putEvent (mkEvent cfg shard_key terminal_status "shard_status" ""),
      S3Write.putDlq d.1 d.2])

/-- QueueWorker.claim_shard (s3_queue_worker.py lines 446-503): scan the
sorted shard objects for a claimable one.  tok supplies the fresh uuid4
claim token minted when writing an object key; confirm gives the
post-settle re-read of an object key (modelling concurrent writers;
none = unreadable).  Returns the granted (key, confirmed payload), if any,
together with the write trace of the scan. -/
def QueueWorker.claim_shard (cfg : WorkerCfg) (now_epoch : Int) (nowIso : String)
    (tok : String → String) (confirm : String → Option ShardObj) :
    List (String × ShardObj) → Option (String × ShardObj) × List S3Write
  | [] => (none, [])
  | (key, shard) :: rest =>
    let status := normStatus shard.status
    if ¬(status = "queued" ∨ status = "retrying") then
      QueueWorker.claim_shard cfg now_epoch nowIso tok confirm rest
    else
      let retry_epoch := parse_int shard.retry_available_at_epoch 0
      if status = "retrying" ∧ now_epoch < retry_epoch then
        QueueWorker.claim_shard cfg now_epoch nowIso tok confirm rest
      else
        let attempt := parse_int shard.attempt 0
        let max_attempts := max (parse_int shard.max_attempts cfg.shard_max_attempts) 1
        if attempt ≥ max_attempts then
          let failed :=
            { shard with
                status := "failed"
                updated_at := nowIso
                last_worker_id := cfg.worker_id
                last_exit_code := some (parse_int shard.last_exit_code 1) }
          let res := QueueWorker.claim_shard cfg now_epoch nowIso tok confirm rest
          (res.1, S3Write.putShard key failed ::
            S3Write.putEvent (mkEvent cfg shard.shard_key "failed" "shard_status"
              "attempts_exhausted") :: res.2)
        else
          let claim_token := tok key
          let running :=
            { shard with
                status := "running"
                attempt := some (attempt + 1)
                claim_token := claim_token
                updated_at := nowIso
                started_at := nowIso
                last_worker_id := cfg.worker_id
                retry_available_at_epoch := some 0
                retry_available_at := "" }
          let w0 := S3Write.putShard key running
          match confirm key with
          | none =>
            let res := QueueWorker.claim_shard cfg now_epoch nowIso tok confirm rest
            (res.1, w0 :: res.2)
          | some confirmed =>
            if confirmed.claim_token ≠ claim_token then
              let res := QueueWorker.claim_shard cfg now_epoch nowIso tok confirm rest
              (res.1, w0 :: res.2)
            else if normStatus confirmed.status ≠ "running" then
              let res := QueueWorker.claim_shard cfg now_epoch nowIso tok confirm rest
              (res.1, w0 :: res.2)
            else
              let evt_shard_key := if pyStrip confirmed.shard_key = "" then
                  removeJsonSuffix (lastSegment key)
                else pyStrip confirmed.shard_key
              (some (key, confirmed),
               [w0, S3Write.putEvent (mkEvent cfg evt_shard_key "running" "shard_status" "")])

/-- C2: a shard claim is granted only when the post-settle re-read of the
shard object shows status running and a claim_token equal to the token the
claimant just wrote for that key; on any mismatch or unreadable re-read the
scan continues past that shard, so every granted claim satisfies the three
checks. -/
theorem C2_claim_confirmed (cfg : WorkerCfg) (now_epoch : Int) (nowIso : String)
    (tok : String → String) (confirm : String → Option ShardObj)
    (items : List (String × ShardObj)) (key : String) (c : ShardObj)
    (h : (QueueWorker.claim_shard cfg now_epoch nowIso tok confirm items).1 = some (key, c)) :
    confirm key = some c ∧ c.claim_token = tok key ∧ normStatus c.status = "running" := by
  induction items with
  | nil => simp [QueueWorker.claim_shard] at h
  | cons kv rest ih =>
    obtain ⟨k0, s0⟩ := kv
    simp only [QueueWorker.claim_shard] at h
    split at h
    · exact ih h
    split at h
    · exact ih h
    split at h
    · exact ih h
    split at h
    · exact ih h
    · next heq =>
      split at h
      · exact ih h
      split at h
      · exact ih h
      · next confirmed heq hck hst =>
        simp only [Prod.fst, Option.some.injEq, Prod.mk.injEq] at h
        obtain ⟨hk, hc⟩ := h
        subst hk
        subst hc
        exact ⟨heq, not_not.mp hck, not_not.mp hst⟩

/-- Worker configuration used by the concrete worker scenarios. -/
def cfgW : WorkerCfg := { run_id := "100", benchmark_uuid := "u", worker_id := "w" }

/-- A queued shard used by the C2 witness scenario. -/
def c2queued : ShardObj :=
  { shard_key := "a", fuzzer_key := "f", status := "queued", attempt := some 0,
    max_attempts := some 3 }

/-- The post-settle re-read observed by the C2 witness: the write stuck. -/
def c2confirmed : ShardObj :=
  { shard_key := "a", fuzzer_key := "f", status := "running", attempt := some 1,
    max_attempts := some 3, claim_token := "tk", updated_at := "t", started_at := "t",
    last_worker_id := "w", retry_available_at_epoch := some 0 }

/-- Witness for C2 at a concrete input: a claim granted on a queued shard
whose re-read carries the freshly minted token and status running. -/
theorem C2_claim_confirmed_witness :
    (fun _ : String => some c2confirmed) "k" = some c2confirmed ∧
    c2confirmed.claim_token = (fun _ : String => "tk") "k" ∧
    normStatus c2confirmed.status = "running" :=
  C2_claim_confirmed cfgW 0 "t" (fun _ => "tk") (fun _ => some c2confirmed)
    [("k", c2queued)] "k" c2confirmed (by decide)

/-- C3: after a claimed shard finishes with exit code E, complete_shard
writes exactly one shard transition: E = 0 yields succeeded; any non-zero E
with attempt < max_attempts yields retrying with retry_available_at_epoch =
now + min 300 (30 * 2^(attempt-1)); with attempts exhausted E = 124 yields
timed_out and any other non-zero E yields failed; and claim_token is
cleared to the empty string in every one of these transitions. -/
theorem C3_complete_shard_transition (cfg : WorkerCfg) (key : String) (shard : ShardObj)
    (E now : Int) (nowIso retryIso : String) (a : Int)
    (ha : shard.attempt = some a) (ha1 : 1 ≤ a) :
    ((QueueWorker.complete_shard cfg key shard E now nowIso retryIso).2.filter
        S3Write.isShardPut =
      [S3Write.putShard key (QueueWorker.complete_shard cfg key shard E now nowIso retryIso).1]) ∧
    (QueueWorker.complete_shard cfg key shard E now nowIso retryIso).1.claim_token = "" ∧
    (E = 0 →
      (QueueWorker.complete_shard cfg key shard E now nowIso retryIso).1.status = "succeeded") ∧
    (E ≠ 0 → a < max (parse_int shard.max_attempts cfg.shard_max_attempts) 1 →
      (QueueWorker.complete_shard cfg key shard E now nowIso retryIso).1.status = "retrying" ∧
      (QueueWorker.complete_shard cfg key shard E now nowIso
          retryIso).1.retry_available_at_epoch =
        some (now + min 300 (30 * 2 ^ (a - 1).toNat))) ∧
    (E ≠ 0 → max (parse_int shard.max_attempts cfg.shard_max_attempts) 1 ≤ a →
      ((E = 124 →
        (QueueWorker.complete_shard cfg key shard E now nowIso retryIso).1.status =
          "timed_out") ∧
       (E ≠ 124 →
        (QueueWorker.complete_shard cfg key shard E now nowIso retryIso).1.status =
          "failed"))) := by
  have hga : parse_int shard.attempt 1 = a := by simp [parse_int, ha]
  have hmax : (a - 1) ⊔ 0 = a - 1 := by omega
  simp only [QueueWorker.complete_shard, hga, hmax]
  split_ifs <;>
    simp_all [List.filter, S3Write.isShardPut, Int.mul_comm] <;> omega

/-- The shard completed in the C3 witness scenario: first attempt of 3. -/
def c3shard : ShardObj :=
  { shard_key := "a", fuzzer_key := "f", status := "running", attempt := some 1,
    max_attempts := some 3, claim_token := "tk" }

/-- Witness for C3 at a concrete input: exit code 5 on attempt 1 of 3 at
epoch 1000 yields retrying at 1030 with the claim token cleared. -/
theorem C3_complete_shard_transition_witness :
    (QueueWorker.complete_shard cfgW "k" c3shard 5 1000 "n" "ri").1.status = "retrying" ∧
    (QueueWorker.complete_shard cfgW "k" c3shard 5 1000 "n" "ri").1.retry_available_at_epoch =
      some 1030 ∧
    (QueueWorker.complete_shard cfgW "k" c3shard 5 1000 "n" "ri").1.claim_token = "" := by
  have h := C3_complete_shard_transition cfgW "k" c3shard 5 1000 "n" "ri" 1 rfl (by decide)
  have h2 := h.2.2.2.1 (by decide) (by decide)
  refine ⟨h2.1, ?_, h.2.1⟩
  rw [h2.2]
  decide

theorem claim_shard_no_dlq (cfg : WorkerCfg) (now_epoch : Int) (nowIso : String)
    (tok : String → String) (confirm : String → Option ShardObj)
    (items : List (String × ShardObj)) :
    (QueueWorker.claim_shard cfg now_epoch nowIso tok confirm items).2.filter
      S3Write.isDlqPut = [] := by
  induction items with
  | nil => simp [QueueWorker.claim_shard]
  | cons kv rest ih =>
    obtain ⟨k0, s0⟩ := kv
    simp only [QueueWorker.claim_shard]
    split
    · exact ih
    split
    · exact ih
    split
    · simpa [S3Write.isDlqPut] using ih
    split
    · simpa [S3Write.isDlqPut] using ih
    split
    · simpa [S3Write.isDlqPut] using ih
    split
    · simpa [S3Write.isDlqPut] using ih
    · simp [S3Write.isDlqPut]

/-- The exhausted queued shard of the C4 scenarios: attempt 3 of 3. -/
def c4shard : ShardObj :=
  { shard_key := "a", fuzzer_key := "f", status := "queued", attempt := some 3,
    max_attempts := some 3 }

/-- C4 is refuted on the code: when the claim scan encounters an exhausted
queued shard (attempt 3 of 3) it writes the failed transition, yet its
write trace contains no DLQ put — no dlq/ summary object is written on
that path. -/
theorem C4_counterexample :
    ((QueueWorker.claim_shard cfgW 0 "t" (fun _ => "tk") (fun _ => none)
        [("runs/100/u/queue/shards/a.json", c4shard)]).2.countP
      S3Write.putsFailedShard = 1) ∧
    ((QueueWorker.claim_shard cfgW 0 "t" (fun _ => "tk") (fun _ => none)
        [("runs/100/u/queue/shards/a.json", c4shard)]).2.filter
      S3Write.isDlqPut = []) := by decide

/-- C4 (amended): DLQ summaries come from the completion path only.  The
claim-scan write trace never contains a DLQ put (an exhausted
queued/retrying shard is marked failed with an attempts_exhausted event but
no DLQ object), while complete_shard on a non-zero exit code with
attempt >= max_attempts does write the summary object at
dlq/<sanitized shard>-<attempt>.json carrying the shard key, attempt count,
exit code and worker id. -/
theorem C4_dlq_only_on_completion (cfg : WorkerCfg) (now_epoch : Int) (nowIso : String)
    (tok : String → String) (confirm : String → Option ShardObj)
    (items : List (String × ShardObj)) (key : String) (shard : ShardObj)
    (E now : Int) (nowIso2 retryIso : String) (a : Int)
    (ha : shard.attempt = some a) (hE : E ≠ 0)
    (hex : max (parse_int shard.max_attempts cfg.shard_max_attempts) 1 ≤ a) :
    ((QueueWorker.claim_shard cfg now_epoch nowIso tok confirm items).2.filter
      S3Write.isDlqPut = []) ∧
    S3Write.putDlq
        (QueueWorker.dlqRoot cfg ++ sanitize (pyStrip shard.shard_key) ++ "-" ++
          intToStr a ++ ".json")
        { run_id := cfg.run_id, benchmark_uuid := cfg.benchmark_uuid,
          shard_key := pyStrip shard.shard_key,
          status := if E = 124 then "timed_out" else "failed",
          attempt := a, max_attempts := parse_int shard.max_attempts cfg.shard_max_attempts,
          exit_code := E, worker_id := cfg.worker_id, failed_at := nowIso2 } ∈
      (QueueWorker.complete_shard cfg key shard E now nowIso2 retryIso).2 := by
  refine ⟨claim_shard_no_dlq cfg now_epoch nowIso tok confirm items, ?_⟩
  have hga : parse_int shard.attempt 1 = a := by simp [parse_int, ha]
  simp only [QueueWorker.complete_shard, QueueWorker.dlq, hga]
  split_ifs <;> simp_all [parse_int] <;> omega

/-- Witness for C4 at a concrete input: an empty scan (no DLQ writes) and a
completion with exit code 7 on attempt 3 of 3, which does write the DLQ
summary. -/
theorem C4_dlq_only_on_completion_witness :
    ((QueueWorker.claim_shard cfgW 0 "t" (fun _ => "") (fun _ => none) []).2.filter
      S3Write.isDlqPut = []) ∧
    S3Write.putDlq
        (QueueWorker.dlqRoot cfgW ++ sanitize (pyStrip c4shard.shard_key) ++ "-" ++
          intToStr 3 ++ ".json")
        { run_id := cfgW.run_id, benchmark_uuid := cfgW.benchmark_uuid,
          shard_key := pyStrip c4shard.shard_key,
          status := if (7:Int) = 124 then "timed_out" else "failed",
          attempt := 3, max_attempts := parse_int c4shard.max_attempts cfgW.shard_max_attempts,
          exit_code := 7, worker_id := cfgW.worker_id, failed_at := "n" } ∈
      (QueueWorker.complete_shard cfgW "k" c4shard 7 0 "n" "ri").2 :=
  C4_dlq_only_on_completion cfgW 0 "t" (fun _ => "") (fun _ => none) [] "k" c4shard 7 0
    "n" "ri" 3 rfl (by decide) (by decide)

/-- One entry of the decoded shard list after parse_shards validation
(s3_queue_init.py lines 116-144): shard_key and fuzzer_key trimmed and
non-empty, run_index a non-negative integer, shard_key values distinct. -/
structure ShardSpec where
  shard_key : String
  fuzzer_key : String
  run_index : Int
  deriving Repr, DecidableEq

/-- The queue/shards/ object key of a shard (s3_queue_init.py main). -/
def shardObjectKey (shardRoot sk : String) : String := shardRoot ++ sk ++ ".json"

/-- The fresh shard payload the initializer creates for an untracked shard
(s3_queue_init.py lines 259-273). -/
def initShardPayload (now : String) (shard_max_attempts : Int) (sp : ShardSpec) : ShardObj :=
  { shard_key := sp.shard_key, fuzzer_key := sp.fuzzer_key, run_index := sp.run_index,
    status := "queued", attempt := some 0, max_attempts := some shard_max_attempts,
    created_at := now, updated_at := now, last_worker_id := "", last_exit_code := none,
    retry_available_at_epoch := some 0, retry_available_at := "", claim_token := "" }

/-- One iteration of the creation loop of s3_queue_init.py main: the
head-object existence probe, then the conditional put of the queued payload
(the bootstrap event object lives under another prefix and is not part of
the shard store). -/
def queueInitStep (shardRoot now : String) (shard_max_attempts : Int)
    (store : String → Option ShardObj) (sp : ShardSpec) : String → Option ShardObj :=
  let key := shardObjectKey shardRoot sp.shard_key
  if (store key).isSome then store
  else fun k => if k = key then some (initShardPayload now shard_max_attempts sp) else store k

/-- The creation loop of s3_queue_init.py main over the full shard list,
transforming the queue/shards/ portion of the object store. -/
def queueInitCreate (shardRoot now : String) (shard_max_attempts : Int)
    (shards : List ShardSpec) (store : String → Option ShardObj) :
    String → Option ShardObj :=
  shards.foldl (queueInitStep shardRoot now shard_max_attempts) store

theorem queueInitStep_preserves (shardRoot now : String) (m : Int)
    (store : String → Option ShardObj) (sp : ShardSpec) (k : String) (v : ShardObj)
    (h : store k = some v) : queueInitStep shardRoot now m store sp k = some v := by
  unfold queueInitStep
  split
  · exact h
  · next hns =>
    by_cases hk : k = shardObjectKey shardRoot sp.shard_key
    · rw [← hk] at hns
      rw [h] at hns
      simp at hns
    · simp only [if_neg hk]
      exact h

theorem queueInitCreate_preserves (shardRoot now : String) (m : Int)
    (shards : List ShardSpec) :
    ∀ store k v, store k = some v →
      queueInitCreate shardRoot now m shards store k = some v := by
  induction shards with
  | nil => exact fun store k v h => h
  | cons sp0 rest ih =>
    intro store k v h
    exact ih _ k v (queueInitStep_preserves shardRoot now m store sp0 k v h)

theorem shardObjectKey_inj (shardRoot a b : String)
    (h : shardObjectKey shardRoot a = shardObjectKey shardRoot b) : a = b := by
  have hd := congrArg String.data h
  simp only [shardObjectKey, String.data_append, List.append_assoc] at hd
  have h2 := List.append_cancel_left hd
  have h3 := List.append_cancel_right h2
  cases a; cases b; exact congrArg String.mk h3

theorem queueInitCreate_creates (shardRoot now : String) (m : Int)
    (shards : List ShardSpec) :
    (shards.map ShardSpec.shard_key).Nodup →
    ∀ store sp, sp ∈ shards → store (shardObjectKey shardRoot sp.shard_key) = none →
      queueInitCreate shardRoot now m shards store (shardObjectKey shardRoot sp.shard_key) =
        some (initShardPayload now m sp) := by
  induction shards with
  | nil =>
    intro _ store sp hsp
    cases hsp
  | cons sp0 rest ih =>
    intro hnodup store sp hsp hnone
    obtain ⟨hnm, hnd⟩ := List.nodup_cons.mp hnodup
    rcases List.mem_cons.mp hsp with heq | hmem
    · subst heq
      have hstep : queueInitStep shardRoot now m store sp
          (shardObjectKey shardRoot sp.shard_key) = some (initShardPayload now m sp) := by
        unfold queueInitStep
        rw [if_neg (by simp [hnone])]
        simp
      exact queueInitCreate_preserves shardRoot now m rest _ _ _ hstep
    · have hnone2 : (queueInitStep shardRoot now m store sp0)
          (shardObjectKey shardRoot sp.shard_key) = none := by
        unfold queueInitStep
        split
        · exact hnone
        · have hk : ¬shardObjectKey shardRoot sp.shard_key =
              shardObjectKey shardRoot sp0.shard_key := by
            intro hk
            have hkk := shardObjectKey_inj shardRoot _ _ hk
            exact hnm (List.mem_map.mpr ⟨sp, hmem, hkk⟩)
          simp only [hk, if_false]
          exact hnone
      exact ih hnd _ sp hmem hnone2

/-- C8: running the initializer again is idempotent on shard objects: every
key that already holds an object keeps exactly its old payload (status and
attempt included), and each listed shard whose object key is absent is
created in state queued with attempt = 0 (given the distinct shard_key
values that parse_shards guarantees). -/
theorem C8_init_idempotent (shardRoot now : String) (m : Int) (shards : List ShardSpec)
    (store : String → Option ShardObj)
    (hnodup : (shards.map ShardSpec.shard_key).Nodup) :
    (∀ k v, store k = some v →
      queueInitCreate shardRoot now m shards store k = some v) ∧
    (∀ sp ∈ shards, store (shardObjectKey shardRoot sp.shard_key) = none →
      queueInitCreate shardRoot now m shards store (shardObjectKey shardRoot sp.shard_key) =
        some (initShardPayload now m sp) ∧
      (initShardPayload now m sp).status = "queued" ∧
      (initShardPayload now m sp).attempt = some 0) :=
  ⟨fun k v h => queueInitCreate_preserves shardRoot now m shards store k v h,
   fun sp hsp hnone =>
    ⟨queueInitCreate_creates shardRoot now m shards hnodup store sp hsp hnone, rfl, rfl⟩⟩

/-- The pre-existing store of the C8 witness: shard a is already tracked as
succeeded on attempt 2; shard b is untracked. -/
def c8store : String → Option ShardObj := fun k =>
  if k = "runs/1/u/queue/shards/a.json" then
    some
      { shard_key := "a"
        fuzzer_key := "f"
        status := "succeeded"
        attempt := some 2
        max_attempts := some 3 }
  else none

/-- The shard list of the C8 witness. -/
def c8shards : List ShardSpec :=
  [{ shard_key := "a", fuzzer_key := "f", run_index := 0 },
   { shard_key := "b", fuzzer_key := "f", run_index := 1 }]

/-- Witness for C8 at a concrete input: re-running over shards a and b with
a already tracked leaves the a object unchanged and creates only b, queued
with attempt 0. -/
theorem C8_init_idempotent_witness :
    queueInitCreate "runs/1/u/queue/shards/" "t" 3 c8shards c8store
        "runs/1/u/queue/shards/a.json" =
      some
        { shard_key := "a"
          fuzzer_key := "f"
          status := "succeeded"
          attempt := some 2
          max_attempts := some 3 } ∧
    queueInitCreate "runs/1/u/queue/shards/" "t" 3 c8shards c8store
        "runs/1/u/queue/shards/b.json" =
      some (initShardPayload "t" 3 { shard_key := "b", fuzzer_key := "f", run_index := 1 }) ∧
    (initShardPayload "t" 3 { shard_key := "b", fuzzer_key := "f", run_index := 1 }).status =
      "queued" ∧
    (initShardPayload "t" 3 { shard_key := "b", fuzzer_key := "f", run_index := 1 }).attempt =
      some 0 := by
  have h := C8_init_idempotent "runs/1/u/queue/shards/" "t" 3 c8shards c8store (by decide)
  refine ⟨h.1 _ _ (by decide), ?_⟩
  have h2 := h.2 { shard_key := "b", fuzzer_key := "f", run_index := 1 } (by decide) (by decide)
  exact ⟨by simpa using h2.1, h2.2.1, h2.2.2⟩

end Scfuzzbench
